import Mathlib

/-!
Shallow embedding of `src/app.js` (dinosaur-infographic comparison engine).

Conventions of the embedding:
* JS numbers are modelled as rationals (`ℚ`); `Math.round x` is `⌊x + 1/2⌋`,
  which is the ECMAScript round-half-up behaviour for finite arguments.
* JS plain objects are modelled as association lists of own properties
  (`Obj`), together with a one-level prototype (`JsObj`) so that the
  difference between `hasOwnProperty` (own only) and property reads
  (own, then prototype) is observable.
* `Math.random()` is modelled as an explicit parameter `u : ℚ` with
  `0 ≤ u < 1`, one independent draw per dinosaur tile.
* The comparison / tile layer works on well-formed entities
  (`AnimalT`, `HumanT`, `DinoT`), matching the source's assumption that
  comparators receive validated records.
-/

/-- JS `Math.round` for finite arguments: round half up. -/
def jsRound (x : ℚ) : ℤ := ⌊x + 1 / 2⌋

/-- Rendering of a JS number into a template string.  The repository's data
only interpolates integral weights, where JS prints the plain integer. -/
def numToStr (q : ℚ) : String := if q.den = 1 then toString q.num else toString q

/-- JS `Number.prototype.toFixed(2)`: nearest multiple of 1/100, ties
towards the larger value, printed with exactly two decimals. -/
def toFixed2 (x : ℚ) : String :=
  let n : ℤ := ⌊x * 100 + 1 / 2⌋
  (if n < 0 then "-" else "") ++ toString (n.natAbs / 100) ++ "." ++
    (if n.natAbs % 100 < 10 then "0" else "") ++ toString (n.natAbs % 100)

/-- A JS property value: a number, a string, or `undefined`. -/
inductive JsValue where
  | vnum (q : ℚ)
  | vstr (s : String)
  | vundef
deriving DecidableEq, Repr

/-- Own enumerable properties of a plain JS object, in insertion order. -/
def Obj : Type := List (String × JsValue)

instance : DecidableEq Obj := by unfold Obj; infer_instance

/-- A JS object together with (one level of) its prototype chain. -/
structure JsObj where
  own : List (String × JsValue)
  proto : List (String × JsValue)
deriving DecidableEq, Repr

/-- First value stored under key `k` in a property list. -/
def lookupOwn (o : List (String × JsValue)) (k : String) : Option JsValue :=
  (o.find? (fun p => p.1 == k)).map (fun p => p.2)

/-- JS `Object.prototype.hasOwnProperty.call(o, k)`: own properties only. -/
def hasOwnProperty (o : JsObj) (k : String) : Bool :=
  (o.own.find? (fun p => p.1 == k)).isSome

/-- A JS property read `o[k]`: own properties first, then the prototype,
and `undefined` when the key is absent everywhere. -/
def jsGet (o : JsObj) (k : String) : JsValue :=
  match lookupOwn o.own k with
  | some v => v
  | none => (lookupOwn o.proto k).getD JsValue.vundef

/-- JS property write: overwrite in place when the key exists, else append. -/
def setProp (o : List (String × JsValue)) (k : String) (v : JsValue) :
    List (String × JsValue) :=
  if (o.find? (fun p => p.1 == k)).isSome then
    o.map (fun p => if p.1 == k then (k, v) else p)
  else
    o ++ [(k, v)]

/-- JS `Object.assign(target, src)` on plain objects. -/
def objAssign (target src : List (String × JsValue)) : List (String × JsValue) :=
  src.foldl (fun acc p => setProp acc p.1 p.2) target

/-- Required field list, `src/app.js` line 1. -/
def EXPECTED_PROPERTIES : List String :=
  ["species", "weight", "height", "diet", "where", "when", "fact"]

/-- The `Animal` constructor (`src/app.js` lines 36-42): an object literal with
exactly the `weight`, `height`, `diet` reads of the input. -/
def Animal (properties : JsObj) : List (String × JsValue) :=
  [("weight", jsGet properties ("weight")),
   ("height", jsGet properties ("height")),
   ("diet", jsGet properties ("diet"))]

/-- The `Human` constructor (`src/app.js` lines 50-53):
`const {name, ...rest} = properties; Object.assign(Animal(rest), {name})`.
Rest-destructuring collects the non-`name` own properties; the `name`
read itself goes through the prototype chain. -/
def Human (properties : JsObj) : List (String × JsValue) :=
  let name := jsGet properties ("name")
  let rest : List (String × JsValue) :=
    properties.own.filter (fun p => !(p.1 == "name"))
  objAssign (Animal ⟨rest, []⟩) [("name", name)]

/-- The `Dino` constructor (`src/app.js` lines 63-78): `forEach` over
`EXPECTED_PROPERTIES` throws on the first field that is not an own
property; otherwise the four named fields are split off and the rest is
passed to `Animal` before being merged back. -/
def Dino (properties : JsObj) : Except String (List (String × JsValue)) :=
  match EXPECTED_PROPERTIES.find? (fun k => !(hasOwnProperty properties k)) with
  | some missing => Except.error ("Missing required Dinosaur property: " ++ missing)
  | none =>
    let rest : List (String × JsValue) :=
      properties.own.filter
        (fun p => !(p.1 == "species" || p.1 == "where" || p.1 == "when" || p.1 == "fact"))
    Except.ok (objAssign (Animal ⟨rest, []⟩)
      [("species", jsGet properties ("species")),
       ("where", jsGet properties ("where")),
       ("when", jsGet properties ("when")),
       ("fact", jsGet properties ("fact"))])

/-- A well-formed entity as consumed by the comparators: the three shared
attributes of `Animal`. -/
structure AnimalT where
  weight : ℚ
  height : ℚ
  diet : String
deriving DecidableEq, Repr

/-- A well-formed human entity (`Animal` plus `name`). -/
structure HumanT extends AnimalT where
  name : String
deriving DecidableEq, Repr

/-- A well-formed dinosaur entity (`Animal` plus the four named fields;
the JS fields `where` / `when` are Lean keywords, hence the suffix). -/
structure DinoT extends AnimalT where
  species : String
  whereLived : String
  whenLived : String
  fact : String
deriving DecidableEq, Repr

/-- Function `compareWeights` (`src/app.js` lines 88-101); `self` is the JS `this`. -/
def compareWeights (self animal : AnimalT) : String :=
  let diff := animal.weight - self.weight
  if diff > 0 then
    "At " ++ numToStr self.weight ++ " lbs, I am about " ++
      toString (jsRound (100 * (animal.weight - self.weight) / animal.weight)) ++
      "% lighter than you"
  else if diff < 0 then
    "At " ++ numToStr self.weight ++ " lbs, I am about " ++
      toString (jsRound (100 * (self.weight - animal.weight) / animal.weight)) ++
      "% heavier than you"
  else
    "We have the exact same weight!"

/-- Function `compareHeights` (`src/app.js` lines 108-121). -/
def compareHeights (self animal : AnimalT) : String :=
  let diff := animal.height - self.height
  if diff > 0 then
    "At " ++ toFixed2 (self.height / 12) ++ " feet, I am about " ++
      toString (jsRound (100 * (animal.height - self.height) / animal.height)) ++
      "% smaller than you"
  else if diff < 0 then
    "At " ++ toFixed2 (self.height / 12) ++ " feet, I am about " ++
      toString (jsRound (100 * (self.height - animal.height) / animal.height)) ++
      "% taller than you"
  else
    "We have the exact same height!"

/-- Function `compareDiet` (`src/app.js` lines 128-142). -/
def compareDiet (self animal : AnimalT) : String :=
  if self.diet ≠ "herbivore" ∧ animal.diet = "herbivore" then
    "Really, you don\x27t eat meat ?"
  else if self.diet = "herbivore" ∧ animal.diet ≠ "herbivore" then
    "I think you shouldn\x27t eat meat, you know."
  else if self.diet ≠ "carnivore" ∧ animal.diet = "carnivore" then
    "I think you should try some vegetables, you know !"
  else if self.diet = "carnivore" ∧ animal.diet ≠ "carnivore" then
    "Why do you waste your appetite on vegetables ?"
  else
    "We like the same food !"

/-- Function `generateTileHTML` (`src/app.js` lines 153-161).  `image = image || caption`
and `fact = fact || null` use JS truthiness, where the empty string and
a missing argument are both falsy. -/
def generateTileHTML (caption : String) (fact : Option String)
    (image : Option String) : String :=
  let image :=
    match image with
    | none => caption
    | some s => if s = "" then caption else s
  let fact : Option String :=
    match fact with
    | none => none
    | some s => if s = "" then none else some s
  "<div class=\"grid-item\">\n                <h3>" ++ caption ++
    "</h3>\n                <img src=\"images/" ++ image ++ ".png\" alt=\"" ++
    caption ++ " image\"/>\n                " ++
    (match fact with
     | some f => "<p>" ++ f ++ "</p>"
     | none => "") ++
    "\n            </div>"

/-- The six-element candidate list built in `getTileHTML`
(`src/app.js` lines 178-185). -/
def factsList (other : DinoT) (human : HumanT) : List String :=
  ["Location: " ++ other.whereLived,
   "When I lived: " ++ other.whenLived,
   other.fact,
   compareDiet other.toAnimalT human.toAnimalT,
   compareHeights other.toAnimalT human.toAnimalT,
   compareWeights other.toAnimalT human.toAnimalT]

/-- The fact-selection index `Math.round(Math.random() * 5)`
(`src/app.js` line 186), as a function of the `Math.random()` draw `u`. -/
def factIndex (u : ℚ) : ℤ := jsRound (u * 5)

/-- Function `getTileHTML` (`src/app.js` lines 170-188).  The one-argument call is
modelled by `other = none`; `u` is the `Math.random()` draw consumed only
on the generic dinosaur branch. -/
def getTileHTML (u : ℚ) (human : HumanT) (other : Option DinoT) : String :=
  match other with
  | none => generateTileHTML human.name (some "") (some ("human"))
  | some other =>
    if other.species = "Pigeon" then
      generateTileHTML ("Pigeon") (some other.fact) none
    else
      let fact := (factsList other human).getD (factIndex u).toNat ("")
      generateTileHTML other.species (some fact) none

/-- Function `addTiles` (`src/app.js` lines 195-204): the nine tile strings appended
to the grid, in order.  `us k` is the random draw of the `k`-th dinosaur
tile; the human tile draws no random number (the `0` argument is unused on
that branch). -/
def addTiles (us : Fin 8 → ℚ) (human : HumanT) (dinos : Fin 8 → DinoT) :
    List String :=
  [getTileHTML (us 0) human (some (dinos 0)),
   getTileHTML (us 1) human (some (dinos 1)),
   getTileHTML (us 2) human (some (dinos 2)),
   getTileHTML (us 3) human (some (dinos 3)),
   getTileHTML 0 human none,
   getTileHTML (us 4) human (some (dinos 4)),
   getTileHTML (us 5) human (some (dinos 5)),
   getTileHTML (us 6) human (some (dinos 6)),
   getTileHTML (us 7) human (some (dinos 7))]

/-! ## Theorems -/

lemma factIndex_eq_iff (u : ℚ) (k : ℤ) :
    factIndex u = k ↔ (2 * (k : ℚ) - 1) / 10 ≤ u ∧ u < (2 * (k : ℚ) + 1) / 10 := by
  unfold factIndex jsRound
  rw [Int.floor_eq_iff]
  constructor
  · rintro ⟨h1, h2⟩
    constructor <;> [skip; skip] <;> · push_cast at h1 h2 ⊢; linarith
  · rintro ⟨h1, h2⟩
    constructor <;> · push_cast at h1 h2 ⊢; linarith

/-- C1 counterexample: modelling the draw as a uniform real `u ∈ [0,1)`, the
rounded index `Math.round(u * 5)` takes the value 0 exactly on `[0, 1/10)`,
an interval of length 1/10, which is not the claimed 1/6. -/
theorem factIndex_not_uniform :
    {u : ℚ | 0 ≤ u ∧ u < 1 ∧ factIndex u = 0} = Set.Ico (0 : ℚ) (1 / 10) ∧
    (1 : ℚ) / 10 ≠ 1 / 6 := by
  constructor
  · ext u
    simp only [Set.mem_setOf_eq, Set.mem_Ico, factIndex_eq_iff]
    constructor
    · rintro ⟨h0, h1, h2, h3⟩
      refine ⟨h0, by push_cast at h3 ⊢; linarith⟩
    · rintro ⟨h0, h1⟩
      refine ⟨h0, by linarith, by push_cast; linarith, by push_cast; linarith⟩
  · norm_num

/-- C1 (amended): the fact-selection index `Math.round(u * 5)` on a uniform
draw `u ∈ [0,1)` hits each of the six candidate indices, but not uniformly:
the preimages are the intervals `[0,1/10), [1/10,3/10), [3/10,1/2),
[1/2,7/10), [7/10,9/10), [9/10,1)`, so indices 1-4 are drawn with
probability 1/5 each and indices 0 and 5 with probability 1/10 each; the
draw is an independent parameter per dinosaur tile. -/
theorem factIndex_distribution :
    {u : ℚ | 0 ≤ u ∧ u < 1 ∧ factIndex u = 0} = Set.Ico (0 : ℚ) (1 / 10) ∧
    {u : ℚ | 0 ≤ u ∧ u < 1 ∧ factIndex u = 1} = Set.Ico (1 / 10 : ℚ) (3 / 10) ∧
    {u : ℚ | 0 ≤ u ∧ u < 1 ∧ factIndex u = 2} = Set.Ico (3 / 10 : ℚ) (5 / 10) ∧
    {u : ℚ | 0 ≤ u ∧ u < 1 ∧ factIndex u = 3} = Set.Ico (5 / 10 : ℚ) (7 / 10) ∧
    {u : ℚ | 0 ≤ u ∧ u < 1 ∧ factIndex u = 4} = Set.Ico (7 / 10 : ℚ) (9 / 10) ∧
    {u : ℚ | 0 ≤ u ∧ u < 1 ∧ factIndex u = 5} = Set.Ico (9 / 10 : ℚ) 1 := by
  refine ⟨?_, ?_, ?_, ?_, ?_, ?_⟩ <;>
    · ext u
      simp only [Set.mem_setOf_eq, Set.mem_Ico, factIndex_eq_iff]
      constructor
      · rintro ⟨h0, h1, h2, h3⟩
        constructor <;> · push_cast at h2 h3 ⊢; linarith
      · rintro ⟨h0, h1⟩
        refine ⟨by push_cast at h0 h1 ⊢; linarith, by push_cast at h0 h1 ⊢; linarith,
          by push_cast at h0 h1 ⊢; linarith, by push_cast at h0 h1 ⊢; linarith⟩

/-- C2: direction, displayed weight, percentage formula with the other
party's weight as denominator in both directions, equal-weight symmetry,
and round-half-up rounding of `compareWeights`. -/
theorem compareWeights_spec (A B : AnimalT) :
    (A.weight < B.weight →
      compareWeights A B =
        "At " ++ numToStr A.weight ++ " lbs, I am about " ++
          toString (jsRound (100 * (B.weight - A.weight) / B.weight)) ++
          "% lighter than you") ∧
    (B.weight < A.weight →
      compareWeights A B =
        "At " ++ numToStr A.weight ++ " lbs, I am about " ++
          toString (jsRound (100 * (A.weight - B.weight) / B.weight)) ++
          "% heavier than you") ∧
    (A.weight = B.weight →
      compareWeights A B = "We have the exact same weight!" ∧
      compareWeights B A = "We have the exact same weight!") ∧
    (∀ z : ℤ, jsRound ((z : ℚ) + 1 / 2) = z + 1) := by
  refine ⟨?_, ?_, ?_, ?_⟩
  · intro h
    unfold compareWeights
    dsimp only
    rw [if_pos (by linarith : B.weight - A.weight > 0)]
  · intro h
    unfold compareWeights
    dsimp only
    rw [if_neg (by linarith : ¬ B.weight - A.weight > 0),
      if_pos (by linarith : B.weight - A.weight < 0)]
  · intro h
    constructor <;>
      · unfold compareWeights
        dsimp only
        rw [if_neg (by simp [h]), if_neg (by simp [h])]
  · intro z
    unfold jsRound
    rw [show ((z : ℚ) + 1 / 2 + 1 / 2) = ((z + 1 : ℤ) : ℚ) by push_cast; ring]
    exact Int.floor_intCast _

def a1 : AnimalT := ⟨100, 60, "omnivore"⟩

def a2 : AnimalT := ⟨120, 65, "omnivore"⟩

/-- Witness for C2 at concrete entities of weight 100 and 120:
`round(100 * 20 / 120) = 17`. -/
theorem compareWeights_spec_w :
    a1.weight < a2.weight ∧
    compareWeights a1 a2 = "At 100 lbs, I am about 17% lighter than you" ∧
    compareWeights a1 a1 = "We have the exact same weight!" := by
  have h : a1.weight < a2.weight := by norm_num [a1, a2]
  refine ⟨h, ?_, ((compareWeights_spec a1 a1).2.2.1 rfl).1⟩
  rw [(compareWeights_spec a1 a2).1 h]
  have h17 : jsRound (100 * (a2.weight - a1.weight) / a2.weight) = 17 := by
    norm_num [a1, a2, jsRound]
  rw [h17]
  rfl

/-- C3: `compareHeights` displays the self height divided by 12 and
formatted to two decimals, computes the percentage from raw inch values
with the other party's height as denominator, uses smaller/taller wording,
and reports equality symmetrically. -/
theorem compareHeights_spec (A B : AnimalT) :
    (A.height < B.height →
      compareHeights A B =
        "At " ++ toFixed2 (A.height / 12) ++ " feet, I am about " ++
          toString (jsRound (100 * (B.height - A.height) / B.height)) ++
          "% smaller than you") ∧
    (B.height < A.height →
      compareHeights A B =
        "At " ++ toFixed2 (A.height / 12) ++ " feet, I am about " ++
          toString (jsRound (100 * (A.height - B.height) / B.height)) ++
          "% taller than you") ∧
    (A.height = B.height →
      compareHeights A B = "We have the exact same height!" ∧
      compareHeights B A = "We have the exact same height!") := by
  refine ⟨?_, ?_, ?_⟩
  · intro h
    unfold compareHeights
    dsimp only
    rw [if_pos (by linarith : B.height - A.height > 0)]
  · intro h
    unfold compareHeights
    dsimp only
    rw [if_neg (by linarith : ¬ B.height - A.height > 0),
      if_pos (by linarith : B.height - A.height < 0)]
  · intro h
    constructor <;>
      · unfold compareHeights
        dsimp only
        rw [if_neg (by simp [h]), if_neg (by simp [h])]

/-- Witness for C3 at heights 60 and 65 inches: the display is
`(60/12).toFixed(2) = "5.00"` and `round(100 * 5 / 65) = 8`. -/
theorem compareHeights_spec_w :
    a1.height < a2.height ∧
    compareHeights a1 a2 = "At 5.00 feet, I am about 8% smaller than you" := by
  have h : a1.height < a2.height := by norm_num [a1, a2]
  refine ⟨h, ?_⟩
  rw [(compareHeights_spec a1 a2).1 h]
  have hf : toFixed2 (a1.height / 12) = "5.00" := by
    have h500 : (⌊a1.height / 12 * 100 + 1 / 2⌋ : ℤ) = 500 := by norm_num [a1]
    unfold toFixed2
    rw [h500]
    rfl
  have h8 : jsRound (100 * (a2.height - a1.height) / a2.height) = 8 := by
    norm_num [a1, a2, jsRound]
  rw [hf, h8]
  rfl

/-- C6: the four diet conditions are checked in source order with the first
match winning, and every unmatched pair — in particular any two entities
with an equal diet string, omnivores included — falls through to the
same-food message. -/
theorem compareDiet_spec (A B : AnimalT) :
    (A.diet ≠ "herbivore" ∧ B.diet = "herbivore" →
      compareDiet A B = "Really, you don\x27t eat meat ?") ∧
    (A.diet = "herbivore" ∧ B.diet ≠ "herbivore" →
      compareDiet A B = "I think you shouldn\x27t eat meat, you know.") ∧
    (¬(A.diet = "herbivore" ∧ B.diet ≠ "herbivore") →
      A.diet ≠ "carnivore" ∧ B.diet = "carnivore" →
      compareDiet A B = "I think you should try some vegetables, you know !") ∧
    (¬(A.diet ≠ "herbivore" ∧ B.diet = "herbivore") →
      A.diet = "carnivore" ∧ B.diet ≠ "carnivore" →
      compareDiet A B = "Why do you waste your appetite on vegetables ?") ∧
    (¬(A.diet ≠ "herbivore" ∧ B.diet = "herbivore") →
      ¬(A.diet = "herbivore" ∧ B.diet ≠ "herbivore") →
      ¬(A.diet ≠ "carnivore" ∧ B.diet = "carnivore") →
      ¬(A.diet = "carnivore" ∧ B.diet ≠ "carnivore") →
      compareDiet A B = "We like the same food !") ∧
    (A.diet = B.diet → compareDiet A B = "We like the same food !") := by
  refine ⟨?_, ?_, ?_, ?_, ?_, ?_⟩ <;> unfold compareDiet
  · intro h
    rw [if_pos h]
  · intro h
    rw [if_neg (fun hc => hc.1 h.1), if_pos h]
  · intro h2 h3
    rw [if_neg (fun hc => absurd (h3.2.symm.trans hc.2) (by decide)),
      if_neg h2, if_pos h3]
  · intro h1 h4
    rw [if_neg h1, if_neg (fun hc => absurd (h4.1.symm.trans hc.1) (by decide)),
      if_neg (fun hc => hc.1 h4.1), if_pos h4]
  · intro h1 h2 h3 h4
    rw [if_neg h1, if_neg h2, if_neg h3, if_neg h4]
  · intro h
    split_ifs with h1 h2 h3 h4
    · exact absurd (h.trans h1.2) h1.1
    · exact absurd (h.symm.trans h2.1) h2.2
    · exact absurd (h.trans h3.2) h3.1
    · exact absurd (h.symm.trans h4.1) h4.2
    · rfl

def o1 : AnimalT := ⟨100, 60, "omnivore"⟩

def oHerb : AnimalT := ⟨100, 60, "herbivore"⟩

def oCarn : AnimalT := ⟨100, 60, "carnivore"⟩

/-- Witness for C6: a herbivore facing a carnivore triggers condition 2
before condition 3, and two omnivores fall through to the fallback. -/
theorem compareDiet_spec_w :
    compareDiet oHerb oCarn = "I think you shouldn\x27t eat meat, you know." ∧
    compareDiet o1 o1 = "We like the same food !" := by
  refine ⟨(compareDiet_spec oHerb oCarn).2.1 ⟨rfl, by decide⟩,
    (compareDiet_spec o1 o1).2.2.2.2.2 rfl⟩

lemma compareDiet_eq_msg1_iff (A B : AnimalT) :
    compareDiet A B = "Really, you don\x27t eat meat ?" ↔
      A.diet ≠ "herbivore" ∧ B.diet = "herbivore" := by
  unfold compareDiet
  split_ifs with h1 h2 h3 h4
  · exact iff_of_true rfl h1
  · exact iff_of_false (by decide) h1
  · exact iff_of_false (by decide) h1
  · exact iff_of_false (by decide) h1
  · exact iff_of_false (by decide) h1

lemma compareDiet_eq_msg2_iff (A B : AnimalT) :
    compareDiet A B = "I think you shouldn\x27t eat meat, you know." ↔
      A.diet = "herbivore" ∧ B.diet ≠ "herbivore" := by
  unfold compareDiet
  split_ifs with h1 h2 h3 h4
  · exact iff_of_false (by decide) (fun hc => h1.1 hc.1)
  · exact iff_of_true rfl h2
  · exact iff_of_false (by decide) h2
  · exact iff_of_false (by decide) h2
  · exact iff_of_false (by decide) h2

lemma compareDiet_eq_msg3_iff (A B : AnimalT) :
    compareDiet A B = "I think you should try some vegetables, you know !" ↔
      A.diet ≠ "herbivore" ∧ A.diet ≠ "carnivore" ∧ B.diet = "carnivore" := by
  unfold compareDiet
  split_ifs with h1 h2 h3 h4
  · exact iff_of_false (by decide)
      (fun hr => absurd (h1.2.symm.trans hr.2.2) (by decide))
  · exact iff_of_false (by decide) (fun hr => hr.1 h2.1)
  · exact iff_of_true rfl
      ⟨fun hA => h2 ⟨hA, fun hh => absurd (h3.2.symm.trans hh) (by decide)⟩,
        h3.1, h3.2⟩
  · exact iff_of_false (by decide) (fun hr => h4.2 hr.2.2)
  · exact iff_of_false (by decide) (fun hr => h3 ⟨hr.2.1, hr.2.2⟩)

lemma compareDiet_eq_msg4_iff (A B : AnimalT) :
    compareDiet A B = "Why do you waste your appetite on vegetables ?" ↔
      A.diet = "carnivore" ∧ B.diet ≠ "carnivore" ∧ B.diet ≠ "herbivore" := by
  unfold compareDiet
  split_ifs with h1 h2 h3 h4
  · exact iff_of_false (by decide) (fun hr => hr.2.2 h1.2)
  · exact iff_of_false (by decide)
      (fun hr => absurd (h2.1.symm.trans hr.1) (by decide))
  · exact iff_of_false (by decide) (fun hr => h3.1 hr.1)
  · exact iff_of_true rfl
      ⟨h4.1, h4.2,
        fun hh => h1 ⟨fun hA => absurd (h4.1.symm.trans hA) (by decide), hh⟩⟩
  · exact iff_of_false (by decide) (fun hr => h4 ⟨hr.1, hr.2.1⟩)

/-- C7: swapping the two entities exchanges the two herbivore-mismatch
messages with one another, and likewise the two carnivore-mismatch
messages: `compareDiet` produces message 1 on `(A,B)` exactly when it
produces message 2 on `(B,A)`, and message 3 exactly when message 4. -/
theorem compareDiet_antisymmetric (A B : AnimalT) :
    (compareDiet A B = "Really, you don\x27t eat meat ?" ↔
      compareDiet B A = "I think you shouldn\x27t eat meat, you know.") ∧
    (compareDiet A B = "I think you should try some vegetables, you know !" ↔
      compareDiet B A = "Why do you waste your appetite on vegetables ?") := by
  rw [compareDiet_eq_msg1_iff, compareDiet_eq_msg2_iff,
    compareDiet_eq_msg3_iff, compareDiet_eq_msg4_iff]
  constructor
  · tauto
  · tauto

lemma find?_first {α : Type} (p : α → Bool) (l : List α) :
    ∀ (i : ℕ) (hi : i < l.length), p (l.get ⟨i, hi⟩) = true →
      (∀ (j : ℕ) (hj : j < l.length), j < i → p (l.get ⟨j, hj⟩) = false) →
      l.find? p = some (l.get ⟨i, hi⟩) := by
  induction l with
  | nil => intro i hi; simp at hi
  | cons a t ih =>
    intro i hi hp hj
    cases i with
    | zero =>
      exact List.find?_cons_of_pos _ hp
    | succ n =>
      have ha : p a = false := hj 0 (Nat.succ_pos _) (Nat.succ_pos n)
      rw [List.find?_cons_of_neg _ (by simp [ha])]
      exact ih n (Nat.lt_of_succ_lt_succ hi) hp
        (fun j hjl hjn => hj (j + 1) (Nat.succ_lt_succ hjl) (Nat.succ_lt_succ hjn))

lemma lookupOwn_eq_none_of_not_mem_keys (r : List (String × JsValue)) (k : String)
    (h : k ∉ r.map Prod.fst) : lookupOwn r k = none := by
  unfold lookupOwn
  have hf : r.find? (fun p => p.1 == k) = none := by
    rw [List.find?_eq_none]
    intro x hx
    simp only [beq_iff_eq]
    intro hxk
    exact h (hxk ▸ List.mem_map_of_mem Prod.fst hx)
  rw [hf]
  rfl

/-- C4: `Dino` construction succeeds exactly when all seven required fields
are own properties (the check never consults the prototype), and otherwise
fails with the error naming the first missing field in the fixed order of
`EXPECTED_PROPERTIES`, producing no partial entity. -/
theorem Dino_validation (o : JsObj) :
    ((∀ k ∈ EXPECTED_PROPERTIES, hasOwnProperty o k = true) →
      ∃ r, Dino o = Except.ok r) ∧
    (∀ (i : ℕ) (hi : i < EXPECTED_PROPERTIES.length),
      hasOwnProperty o (EXPECTED_PROPERTIES.get ⟨i, hi⟩) = false →
      (∀ (j : ℕ) (hj : j < EXPECTED_PROPERTIES.length), j < i →
        hasOwnProperty o (EXPECTED_PROPERTIES.get ⟨j, hj⟩) = true) →
      Dino o = Except.error ("Missing required Dinosaur property: " ++
        EXPECTED_PROPERTIES.get ⟨i, hi⟩)) := by
  constructor
  · intro h
    have hn : EXPECTED_PROPERTIES.find? (fun k => !(hasOwnProperty o k)) = none := by
      rw [List.find?_eq_none]
      intro k hk
      simp [h k hk]
    simp only [Dino, hn]
    exact ⟨_, rfl⟩
  · intro i hi hfalse hprev
    have hfind : EXPECTED_PROPERTIES.find? (fun k => !(hasOwnProperty o k)) =
        some (EXPECTED_PROPERTIES.get ⟨i, hi⟩) :=
      find?_first _ _ i hi
        (by show (!(hasOwnProperty o (EXPECTED_PROPERTIES.get ⟨i, hi⟩))) = true
            rw [hfalse]
            rfl)
        (fun j hj hji => by
          show (!(hasOwnProperty o (EXPECTED_PROPERTIES.get ⟨j, hj⟩))) = false
          rw [hprev j hj hji]
          rfl)
    simp only [Dino, hfind]

def demoFull : JsObj :=
  ⟨[("species", JsValue.vstr ("Tyrannosaurus")), ("weight", JsValue.vnum 11905),
    ("height", JsValue.vnum 144), ("diet", JsValue.vstr ("carnivore")),
    ("where", JsValue.vstr ("North America")), ("when", JsValue.vstr ("Late Cretaceous")),
    ("fact", JsValue.vstr ("Largest predator"))], []⟩

def demoProto : JsObj :=
  ⟨[("species", JsValue.vstr ("Triceratops")), ("weight", JsValue.vnum 26000),
    ("height", JsValue.vnum 114), ("diet", JsValue.vstr ("herbivore"))],
   [("where", JsValue.vstr ("North America")), ("when", JsValue.vstr ("Late Cretaceous")),
    ("fact", JsValue.vstr ("Had up to 800 teeth"))]⟩

/-- Witness for C4: a complete record constructs, while a record holding
`where`, `when`, `fact` only on its prototype fails naming `where`, the
first field in validation order that is not an own property. -/
theorem Dino_validation_w :
    (∃ r, Dino demoFull = Except.ok r) ∧
    Dino demoProto = Except.error ("Missing required Dinosaur property: where") := by
  refine ⟨(Dino_validation demoFull).1 ?_, ?_⟩
  · intro k hk
    fin_cases hk <;> rfl
  · exact (Dino_validation demoProto).2 4 (by decide) (by decide) (by decide)

def demoExtra : JsObj :=
  ⟨[("species", JsValue.vstr ("Tyrannosaurus")), ("weight", JsValue.vnum 11905),
    ("height", JsValue.vnum 144), ("diet", JsValue.vstr ("carnivore")),
    ("where", JsValue.vstr ("North America")), ("when", JsValue.vstr ("Late Cretaceous")),
    ("fact", JsValue.vstr ("Largest predator")), ("color", JsValue.vstr ("blue"))], []⟩

/-- C5 counterexample: a record with all 7 required fields plus an extra
`color` field constructs successfully, but the extra is not carried into
the resulting entity at all — `Animal` copies only `weight`, `height`,
`diet` out of the rest object, so `color` is absent from the result. -/
theorem Dino_extras_dropped :
    Dino demoExtra = Except.ok
      [("weight", JsValue.vnum 11905), ("height", JsValue.vnum 144),
       ("diet", JsValue.vstr ("carnivore")), ("species", JsValue.vstr ("Tyrannosaurus")),
       ("where", JsValue.vstr ("North America")), ("when", JsValue.vstr ("Late Cretaceous")),
       ("fact", JsValue.vstr ("Largest predator"))] ∧
    lookupOwn demoExtra.own ("color") = some (JsValue.vstr ("blue")) ∧
    (Dino demoExtra).toOption.map (fun r => lookupOwn r ("color")) = some none := by
  refine ⟨rfl, rfl, rfl⟩

/-- C5 (amended): construction from a record with all 7 required fields plus
extras succeeds; the entity's three `Animal` fields flow through the rest
object and the four named fields through the named destructuring, and the
result consists of exactly these seven fields — extra input fields appear
nowhere in it. -/
theorem Dino_extras_spec (o : JsObj)
    (h : ∀ k ∈ EXPECTED_PROPERTIES, hasOwnProperty o k = true) :
    ∃ r, Dino o = Except.ok r ∧
      r.map Prod.fst = ["weight", "height", "diet", "species", "where", "when", "fact"] ∧
      ∀ k, k ∉ (["weight", "height", "diet", "species", "where", "when", "fact"] : List String) →
        lookupOwn r k = none := by
  have hn : EXPECTED_PROPERTIES.find? (fun k => !(hasOwnProperty o k)) = none := by
    rw [List.find?_eq_none]
    intro k hk
    simp [h k hk]
  have hkeys : (objAssign (Animal ⟨o.own.filter
        (fun p => !(p.1 == "species" || p.1 == "where" || p.1 == "when" || p.1 == "fact")), []⟩)
      [("species", jsGet o ("species")), ("where", jsGet o ("where")),
       ("when", jsGet o ("when")), ("fact", jsGet o ("fact"))]).map Prod.fst =
      ["weight", "height", "diet", "species", "where", "when", "fact"] := by
    simp [objAssign, setProp, Animal]
  refine ⟨_, ?_, hkeys, ?_⟩
  · simp only [Dino, hn]
  · intro k hk
    exact lookupOwn_eq_none_of_not_mem_keys _ _ (by rw [hkeys]; exact hk)

/-- Witness for the amended C5 at the concrete record with a `color` extra. -/
theorem Dino_extras_spec_w :
    (∀ k ∈ EXPECTED_PROPERTIES, hasOwnProperty demoExtra k = true) ∧
    ∃ r, Dino demoExtra = Except.ok r ∧
      r.map Prod.fst = ["weight", "height", "diet", "species", "where", "when", "fact"] ∧
      ∀ k, k ∉ (["weight", "height", "diet", "species", "where", "when", "fact"] : List String) →
        lookupOwn r k = none := by
  have h : ∀ k ∈ EXPECTED_PROPERTIES, hasOwnProperty demoExtra k = true := by
    intro k hk
    fin_cases hk <;> rfl
  exact ⟨h, Dino_extras_spec demoExtra h⟩

/-- C10: `Animal` and `Human` run no validation and always return an object
with exactly the declared fields (`weight`, `height`, `diet`, plus `name`
for `Human`); any other property of the input is absent from the result. -/
theorem Animal_Human_shape (o : JsObj) :
    (Animal o).map Prod.fst = ["weight", "height", "diet"] ∧
    (Human o).map Prod.fst = ["weight", "height", "diet", "name"] ∧
    (∀ k, k ∉ (["weight", "height", "diet"] : List String) → lookupOwn (Animal o) k = none) ∧
    (∀ k, k ∉ (["weight", "height", "diet", "name"] : List String) →
      lookupOwn (Human o) k = none) := by
  have hA : (Animal o).map Prod.fst = ["weight", "height", "diet"] := rfl
  have hH : (Human o).map Prod.fst = ["weight", "height", "diet", "name"] := by
    simp [Human, objAssign, setProp, Animal]
  exact ⟨hA, hH,
    fun k hk => lookupOwn_eq_none_of_not_mem_keys _ _ (by rw [hA]; exact hk),
    fun k hk => lookupOwn_eq_none_of_not_mem_keys _ _ (by rw [hH]; exact hk)⟩

def demoHumanObj : JsObj :=
  ⟨[("name", JsValue.vstr ("Ann")), ("weight", JsValue.vnum 120),
    ("height", JsValue.vnum 65), ("diet", JsValue.vstr ("omnivore")),
    ("color", JsValue.vstr ("blue"))], []⟩

/-- Witness for C10: a human input with an extra `color` property yields an
entity without it. -/
theorem Animal_Human_shape_w :
    ("color" ∉ (["weight", "height", "diet", "name"] : List String)) ∧
    lookupOwn (Human demoHumanObj) ("color") = none :=
  ⟨by decide, (Animal_Human_shape demoHumanObj).2.2.2 ("color") (by decide)⟩

/-- C8: the human-only call renders the human's name as caption with the
fixed `human` image and no body paragraph at all, and the call on a dinosaur
whose species is the `Pigeon` sentinel renders caption `Pigeon` with the
dinosaur's fact as body, with an output independent of the human and of the
random draw (no comparison is involved). -/
theorem getTileHTML_special (u v : ℚ) (human human2 : HumanT) (dino : DinoT) :
    (getTileHTML u human none =
      "<div class=\"grid-item\">\n                <h3>" ++ human.name ++
        "</h3>\n                <img src=\"images/human.png\" alt=\"" ++ human.name ++
        " image\"/>\n                \n            </div>") ∧
    (dino.species = "Pigeon" → dino.fact ≠ "" →
      getTileHTML u human (some dino) =
        "<div class=\"grid-item\">\n                <h3>Pigeon</h3>\n                <img src=\"images/Pigeon.png\" alt=\"Pigeon image\"/>\n                <p>" ++
          dino.fact ++ "</p>\n            </div>" ∧
      getTileHTML u human (some dino) = getTileHTML v human2 (some dino)) := by
  constructor
  · simp [getTileHTML, generateTileHTML, String.append_assoc]
  · intro hs hf
    constructor
    · simp only [getTileHTML, generateTileHTML, hs, if_true, if_pos]
      simp [hf, String.append_assoc]
      rw [← String.append_assoc]
      simp
    · simp [getTileHTML, hs]

def annT : HumanT := ⟨⟨120, 65, "omnivore"⟩, "Ann"⟩

def trexT : DinoT :=
  ⟨⟨11905, 144, "carnivore"⟩, "Tyrannosaurus Rex", "North America",
    "Late Cretaceous", "First discovered in 1902"⟩

def pigeonT : DinoT :=
  ⟨⟨1, 9, "omnivore"⟩, "Pigeon", "Worldwide", "Holocene",
    "All birds are living dinosaurs"⟩

/-- Witness for C8 at the concrete pigeon record. -/
theorem getTileHTML_special_w :
    pigeonT.species = "Pigeon" ∧ pigeonT.fact ≠ "" ∧
    getTileHTML 0 annT (some pigeonT) =
      "<div class=\"grid-item\">\n                <h3>Pigeon</h3>\n                <img src=\"images/Pigeon.png\" alt=\"Pigeon image\"/>\n                <p>All birds are living dinosaurs</p>\n            </div>" := by
  refine ⟨rfl, by decide, ?_⟩
  rw [((getTileHTML_special 0 0 annT annT pigeonT).2 rfl (by decide)).1]
  rfl

lemma getTileHTML_mem (u : ℚ) (hu0 : 0 ≤ u) (hu1 : u < 1) (human : HumanT)
    (d : DinoT) (hs : d.species ≠ "Pigeon") :
    ∃ f ∈ factsList d human,
      getTileHTML u human (some d) = generateTileHTML d.species (some f) none := by
  have hge : (0 : ℤ) ≤ factIndex u := by
    unfold factIndex jsRound
    exact Int.floor_nonneg.mpr (by linarith)
  have hlt : factIndex u < 6 := by
    unfold factIndex jsRound
    have h6 : u * 5 + 1 / 2 < (6 : ℚ) := by linarith
    exact Int.floor_lt.mpr (by push_cast; linarith)
  have hlen : (factIndex u).toNat < (factsList d human).length := by
    simp only [factsList, List.length]
    omega
  refine ⟨(factsList d human).get ⟨(factIndex u).toNat, hlen⟩, List.get_mem _ _ _, ?_⟩
  simp only [getTileHTML]
  rw [if_neg hs]
  rw [List.getD_eq_get _ _ hlen]

/-- C9: for any human, any 8 dinosaur entities and any in-range random
draws, `addTiles` yields exactly 9 tiles with the human tile at index 4 and
dinosaur `k` at index `k` for `k < 4` and `k + 1` otherwise; every
non-sentinel dinosaur tile is rendered from a body belonging to that
dinosaur's six-element candidate list, and a sentinel (`Pigeon`) tile is
rendered from its fixed fact verbatim. -/
theorem addTiles_spec (us : Fin 8 → ℚ) (human : HumanT) (dinos8 : Fin 8 → DinoT)
    (hu : ∀ k, 0 ≤ us k ∧ us k < 1) :
    (addTiles us human dinos8).length = 9 ∧
    (addTiles us human dinos8).get? 4 = some (getTileHTML 0 human none) ∧
    (∀ k : Fin 8,
      (addTiles us human dinos8).get? (if (k : ℕ) < 4 then (k : ℕ) else (k : ℕ) + 1) =
        some (getTileHTML (us k) human (some (dinos8 k)))) ∧
    (∀ k : Fin 8, (dinos8 k).species ≠ "Pigeon" →
      ∃ f ∈ factsList (dinos8 k) human,
        getTileHTML (us k) human (some (dinos8 k)) =
          generateTileHTML (dinos8 k).species (some f) none) ∧
    (∀ k : Fin 8, (dinos8 k).species = "Pigeon" →
      getTileHTML (us k) human (some (dinos8 k)) =
        generateTileHTML ("Pigeon") (some (dinos8 k).fact) none) := by
  refine ⟨rfl, rfl, ?_, ?_, ?_⟩
  · intro k
    fin_cases k <;> rfl
  · intro k hs
    exact getTileHTML_mem (us k) (hu k).1 (hu k).2 human (dinos8 k) hs
  · intro k hs
    simp only [getTileHTML]
    rw [if_pos hs]

/-- Witness for C9 with draw 1/2 on every tile and the same dinosaur in all
eight slots. -/
theorem addTiles_spec_w :
    ((0 : ℚ) ≤ 1 / 2 ∧ (1 / 2 : ℚ) < 1) ∧
    (addTiles (fun _ => 1 / 2) annT (fun _ => trexT)).length = 9 := by
  refine ⟨⟨by norm_num, by norm_num⟩, ?_⟩
  exact (addTiles_spec (fun _ => 1 / 2) annT (fun _ => trexT)
    (fun _ => ⟨by norm_num, by norm_num⟩)).1

/-- Witness for C7 at a carnivore/herbivore pair and an omnivore/carnivore
pair. -/
theorem compareDiet_antisymmetric_w :
    (compareDiet oCarn oHerb = "Really, you don\x27t eat meat ?" ↔
      compareDiet oHerb oCarn = "I think you shouldn\x27t eat meat, you know.") ∧
    (compareDiet o1 oCarn = "I think you should try some vegetables, you know !" ↔
      compareDiet oCarn o1 = "Why do you waste your appetite on vegetables ?") :=
  ⟨(compareDiet_antisymmetric oCarn oHerb).1, (compareDiet_antisymmetric o1 oCarn).2⟩
